import Mathlib

/-!
Verification of the Smart-Health-Monitoring clinical text extractor and
rule-based classifier against its specification.

The Python source (PDF_Extraction.py, integrate.py, app.py and the unnamed
route variant) parses clinical measurements out of free text, normalizes
units, classifies each value against fixed numeric bands, and aggregates
per-field statuses into one overall verdict.  Statuses and colors are plain
strings in the source; the color encodes severity (green = ok,
orange = caution, red = risk).  Numeric values are embedded as rationals
(the decimal literals of the source are exactly representable), integers
from `int(...)` as naturals, and Python's `round` (banker's rounding,
half to even) is modelled explicitly.
-/

/-- Python's `str.lower()` (ASCII case folding, character by character). -/
def pyLower (s : String) : String :=
  String.mk (s.data.map Char.toLower)

/-- Does the first character list lead (start) the second one? -/
def leadsWith : List Char → List Char → Bool
  | [], _ => true
  | _ :: _, [] => false
  | a :: as, b :: bs => a == b && leadsWith as bs

/-- Does `pat` occur as a contiguous run inside the list? -/
def occursIn (pat : List Char) : List Char → Bool
  | [] => leadsWith pat []
  | c :: t => leadsWith pat (c :: t) || occursIn pat t

/-- Python's substring test `pat in s` (case-sensitive containment). -/
def strContains (s pat : String) : Bool :=
  occursIn pat.data s.data

/-- Python's `str.capitalize()`: first character uppercased, the rest
lowercased. -/
def pyCapitalize (s : String) : String :=
  match s.data with
  | [] => ""
  | c :: cs => String.mk (c.toUpper :: cs.map Char.toLower)

/-- Python's `round(x)`: round half to even, to an integer. -/
def pyRoundHalfEven (q : ℚ) : ℤ :=
  let n := ⌊q⌋
  let r := q - (n : ℚ)
  if r < 1/2 then n
  else if 1/2 < r then n + 1
  else if n % 2 = 0 then n else n + 1

/-- Python's `round(x, 1)`: round to one decimal place, half to even. -/
def pyRound1 (q : ℚ) : ℚ :=
  (pyRoundHalfEven (q * 10) : ℚ) / 10

/-- Blood-pressure status classifier, from the if/elif chain at
integrate.py:1333-1344 (identical in app.py:182-193 and the unnamed
variant lines 332-343).  Returns (status, color); systolic/diastolic are
the two `int(...)` captures of the blood-pressure locator. -/
def classifyBP (systolic diastolic : ℕ) : String × String :=
  if systolic < 120 ∧ diastolic < 80 then ("Normal", "green")
  else if (120 ≤ systolic ∧ systolic ≤ 139) ∨ (80 ≤ diastolic ∧ diastolic ≤ 89) then
    ("Elevated/Prehypertension", "orange")
  else if (140 ≤ systolic ∧ systolic ≤ 159) ∨ (90 ≤ diastolic ∧ diastolic ≤ 99) then
    ("Hypertension Stage 1", "red")
  else ("Hypertension Stage 2", "red")

/-- Glucose unit normalization, integrate.py:1361-1371 (and app.py:211-220):
`original_unit = unit_str.lower() if unit_str else 'mmol/l'`, then
`if 'mg/dl' in original_unit` (substring test) selects the mg/dL branch.
Returns (value_mmol, value_mg). -/
def glucoseNormalize (value : ℚ) (unit : Option String) : ℚ × ℚ :=
  let originalUnit := match unit with
    | some u => pyLower u
    | none => "mmol/l"
  if strContains originalUnit "mg/dl" then (value / 18, value)
  else (value, value * 18)

/-- Glucose unit normalization as written in PDF_Extraction.py:181-188 (and
the unnamed variant lines 359-366): the unit test there is membership
`original_unit in ['mg/dl', 'mg/dl']` (a duplicated-literal list, i.e.
equality with "mg/dl") instead of substring containment. -/
def glucoseNormalizePdf (value : ℚ) (unit : Option String) : ℚ × ℚ :=
  let originalUnit := match unit with
    | some u => pyLower u
    | none => "mmol/l"
  if originalUnit ∈ ["mg/dl", "mg/dl"] then (value / 18, value)
  else (value, value * 18)

/-- Python truthiness-based `a or b` on optional strings: an empty string is
falsy, as is `None`. -/
def pyOr (a b : Option String) : Option String :=
  match a with
  | some s => if s = "" then b else a
  | none => b

/-- Glucose category resolution of PDF_Extraction.py:190-194 (and the
unnamed variant lines 368-372): `category = specimen_category or
glucose_context or 'Unknown'`, then capitalize unless it is "Unknown".
`specimen` is the (already capitalized) specimen-type locator result,
`qualifier` the (lowercased) inline fasting/random capture. -/
def glucoseCategory (specimen qualifier : Option String) : String :=
  let cat := (pyOr (pyOr specimen qualifier) (some "Unknown")).getD "Unknown"
  if cat = "Unknown" then cat else pyCapitalize cat

/-- Specimen category of integrate.py:1347-1354 (and app.py:196-203): a
matched specimen token is capitalized with "Normal" coerced to "Random";
a missing match defaults to "Random" (never `None`). -/
def specimenCategoryR (specimenMatch : Option String) : String :=
  match specimenMatch with
  | some v =>
    let c := pyCapitalize v
    if c = "Normal" then "Random" else c
  | none => "Random"

/-- Glucose category resolution of integrate.py:1373-1374 (and
app.py:222-223): `category = specimen_category or
(glucose_context.capitalize() if glucose_context else 'Random')`, where
`specimen_category` comes from `specimenCategoryR` and `glucose_context`
is the inline qualifier coalesced to `''` when absent. -/
def glucoseCategoryR (specimenMatch qualifier : Option String) : String :=
  let sc := specimenCategoryR specimenMatch
  if sc = "" then
    match qualifier with
    | some q => if q = "" then "Random" else pyCapitalize q
    | none => "Random"
  else sc

/-- Fasting-glucose band classifier (mmol/L), PDF_Extraction.py:199-211
(and the unnamed variant lines 377-389).  Returns (status, color). -/
def classifyGlucoseFasting (v : ℚ) : String × String :=
  if v < 3.9 then ("Hypoglycemia", "red")
  else if 3.9 ≤ v ∧ v ≤ 6.0 then ("Normal", "green")
  else if 6.1 ≤ v ∧ v ≤ 6.9 then ("Prediabetes", "orange")
  else ("Diabetes", "red")

/-- Random-glucose band classifier (mmol/L), PDF_Extraction.py:212-224. -/
def classifyGlucoseRandom (v : ℚ) : String × String :=
  if v < 3.9 then ("Hypoglycemia", "red")
  else if 3.9 ≤ v ∧ v ≤ 7.7 then ("Normal", "green")
  else if 7.8 ≤ v ∧ v ≤ 11.0 then ("Prediabetes", "orange")
  else ("Diabetes", "red")

/-- Unknown-category glucose classifier, PDF_Extraction.py:225-238 (and the
unnamed variant lines 403-416): the status starts as
"Unknown Category - Assuming Fasting" with color orange, then the fasting
thresholds append a parenthesized band name, overriding the color to red
for the hypoglycemia and diabetes bands. -/
def classifyGlucoseUnknown (v : ℚ) : String × String :=
  let base := "Unknown Category - Assuming Fasting"
  if v < 3.9 then (base ++ " (Hypoglycemia)", "red")
  else if 3.9 ≤ v ∧ v ≤ 6.0 then (base ++ " (Normal)", "orange")
  else if 6.1 ≤ v ∧ v ≤ 6.9 then (base ++ " (Prediabetes)", "orange")
  else (base ++ " (Diabetes)", "red")

/-- Category dispatch for the glucose classifier, PDF_Extraction.py:199-238. -/
def classifyGlucose (category : String) (v : ℚ) : String × String :=
  if category = "Fasting" then classifyGlucoseFasting v
  else if category = "Random" then classifyGlucoseRandom v
  else classifyGlucoseUnknown v

/-- HbA1c unit normalization, PDF_Extraction.py:248-257 (identical in
integrate.py:1417-1426 and the unnamed variant lines 426-435): default
unit `%`; percent input yields mmol/mol = round(v * 10.93 - 23.5) (Python
`round`, an integer); mmol/mol input yields percent =
round((v + 23.5) / 10.93, 1).  Returns (value_percent, value_mmol). -/
def hba1cNormalize (value : ℚ) (unit : Option String) : ℚ × ℚ :=
  let originalUnit := match unit with
    | some u => pyLower u
    | none => "%"
  if originalUnit = "%" then
    (value, (pyRoundHalfEven (value * 10.93 - 23.5) : ℚ))
  else
    (pyRound1 ((value + 23.5) / 10.93), value)

/-- HbA1c band classifier on the percent value, PDF_Extraction.py:262-270
(and integrate.py:1435-1443, unnamed variant lines 440-448). -/
def classifyHbA1c (p : ℚ) : String × String :=
  if p < 5.7 then ("Normal", "green")
  else if 5.7 ≤ p ∧ p ≤ 6.2 then ("Prediabetes", "orange")
  else ("Diabetes", "red")

/-- The diagnosis dictionary of the unnamed route variant: one optional
entry per clinical field.  For the fields whose status feeds the
aggregator (and for bmi) only the (status, color) pair is kept; age and
sex keep their parsed values.  A `none` field models key-absence in the
Python dict. -/
structure DiagnosisRecord where
  age : Option ℚ
  sex : Option String
  bmi : Option (String × String)
  heartDiseases : Option String
  smokingHistory : Option String
  hypertension : Option (String × String)
  glucose : Option (String × String)
  hba1c : Option (String × String)

/-- Status collection of the unnamed variant lines 452-458: the statuses of
exactly glucose, hba1c and hypertension, in that order, for the fields
present in the record. -/
def collectStatuses (d : DiagnosisRecord) : List String :=
  (d.glucose.map Prod.fst).toList ++ (d.hba1c.map Prod.fst).toList ++
    (d.hypertension.map Prod.fst).toList

/-- The risk test of the unnamed variant line 459:
`'Diabetes' in s or 'Hypertension Stage' in s`. -/
def isRiskStatus (s : String) : Bool :=
  strContains s "Diabetes" || strContains s "Hypertension Stage"

/-- The caution test of the unnamed variant line 462:
`'Prediabetes' in s or 'Elevated/Prehypertension' in s`. -/
def isCautionStatus (s : String) : Bool :=
  strContains s "Prediabetes" || strContains s "Elevated/Prehypertension"

/-- The overall decision chain of the unnamed variant lines 459-467. -/
def overallOf (statuses : List String) : String × String :=
  if statuses.any isRiskStatus then ("Diabetes or Hypertension Indicated", "red")
  else if statuses.any isCautionStatus then
    ("Prediabetes or Prehypertension Indicated", "orange")
  else ("Normal", "green")

/-- Python's `if diagnosis:` truthiness test at the unnamed variant
line 450: the dict is truthy iff it has at least one key. -/
def recordNonempty (d : DiagnosisRecord) : Bool :=
  d.age.isSome || d.sex.isSome || d.bmi.isSome || d.heartDiseases.isSome ||
    d.smokingHistory.isSome || d.hypertension.isSome || d.glucose.isSome ||
    d.hba1c.isSome

/-- The unnamed variant lines 450-469: an overall verdict is computed iff
the diagnosis dict is nonempty; otherwise the route reports the
"No diabetes-related or hypertension information found" error (modelled
as `none`). -/
def overallVerdict (d : DiagnosisRecord) : Option (String × String) :=
  if recordNonempty d then some (overallOf (collectStatuses d)) else none

/-- Diagnosis-record assembly of the unnamed variant: heart_diseases and
smoking_history are inserted unconditionally (lines 282-283, reached
whenever the form inputs were supplied and the PDF text is nonempty);
every other field is inserted only when its locator matched. -/
def buildDiagnosis (heart smoking : String) (age : Option ℚ) (sex : Option String)
    (bmi bp glucose hba1c : Option (String × String)) : DiagnosisRecord :=
  { age := age, sex := sex, bmi := bmi, heartDiseases := some heart,
    smokingHistory := some smoking, hypertension := bp, glucose := glucose,
    hba1c := hba1c }

/-- Whitespace class of the regex `\s` over the characters Python treats as
whitespace in text. -/
def isWsChar (c : Char) : Bool :=
  c = ' ' || c = '\t' || c = '\n' || c = '\x0d' || c = '\x0b' || c = '\x0c'

/-- Numeric value of a nonempty digit run. -/
def digitsToNat (ds : List Char) : ℕ :=
  ds.foldl (fun n c => 10 * n + (c.toNat - '0'.toNat)) 0

/-- The numeric capture `(\d+\.?\d*)` of the age locator followed by
`float(...)`: one or more digits, an optional dot, then optional further
digits. Returns `none` when no digit starts here. -/
def ageNumValue (cs : List Char) : Option ℚ :=
  let ip := cs.takeWhile Char.isDigit
  if ip.isEmpty then none
  else
    match cs.drop ip.length with
    | '.' :: t =>
      let fp := t.takeWhile Char.isDigit
      some ((digitsToNat ip : ℚ) + (digitsToNat fp : ℚ) / (10 ^ fp.length))
    | _ => some (digitsToNat ip)

/-- One attempted match of the age pattern
`(age|Age|AGE)\s*[:=]?\s*(\d+\.?\d*)\s*(years|Years|YEARS)?` (with
re.IGNORECASE, integrate.py:1287 and app.py:136) anchored at the start of
the character list.  There is no word-boundary requirement: the three
leading characters only need to spell "age" case-insensitively. -/
def ageMatchAt (cs : List Char) : Option ℚ :=
  match cs with
  | c1 :: c2 :: c3 :: rest =>
    if c1.toLower = 'a' ∧ c2.toLower = 'g' ∧ c3.toLower = 'e' then
      let r1 := rest.dropWhile isWsChar
      let r2 := match r1 with
        | c :: t => if c = ':' ∨ c = '=' then t else r1
        | [] => r1
      ageNumValue (r2.dropWhile isWsChar)
    else none
  | _ => none

/-- `re.search` semantics for the age pattern: try each start position from
the left and return the first successful match's numeric value. -/
def ageSearchL : List Char → Option ℚ
  | [] => none
  | c :: t =>
    match ageMatchAt (c :: t) with
    | some v => some v
    | none => ageSearchL t

/-- The age locator over the document text, integrate.py:1286-1290 /
app.py:135-139: the age field is populated iff the search succeeds. -/
def ageSearch (text : String) : Option ℚ :=
  ageSearchL text.data

/-- The risk test of PDF_Extraction.py line 275: `'Diabetes' in s`. -/
def isRiskStatusPdf (s : String) : Bool :=
  strContains s "Diabetes"

/-- The caution test of PDF_Extraction.py line 278: `'Prediabetes' in s`. -/
def isCautionStatusPdf (s : String) : Bool :=
  strContains s "Prediabetes"

/-- The overall decision chain of PDF_Extraction.py:274-283. -/
def overallOfPdf (statuses : List String) : String × String :=
  if statuses.any isRiskStatusPdf then ("Diabetes Indicated", "red")
  else if statuses.any isCautionStatusPdf then ("Prediabetes Indicated", "orange")
  else ("Normal", "green")

/-- PDF_Extraction.py lines 272-285: that variant's diagnosis dict can only
ever contain the glucose and hba1c keys, so `if diagnosis:` is the test
that at least one of them was located; otherwise the
"No diabetes-related information found" error is reported (modelled as
`none`). -/
def overallVerdictPdf (glucose hba1c : Option (String × String)) :
    Option (String × String) :=
  if glucose.isSome || hba1c.isSome then
    some (overallOfPdf ((glucose.map Prod.fst).toList ++ (hba1c.map Prod.fst).toList))
  else none

/-- The four blood-pressure status strings are pairwise distinct. -/
theorem statusStrings : ("Normal" : String) ≠ "Elevated/Prehypertension" ∧
    ("Normal" : String) ≠ "Hypertension Stage 1" ∧
    ("Normal" : String) ≠ "Hypertension Stage 2" ∧
    ("Elevated/Prehypertension" : String) ≠ "Hypertension Stage 1" ∧
    ("Elevated/Prehypertension" : String) ≠ "Hypertension Stage 2" ∧
    ("Hypertension Stage 1" : String) ≠ "Hypertension Stage 2" := by decide

/-- Claim C1: for every DiagnosisRecord with at least one of the glucose,
hba1c and hypertension fields present, an overall verdict is produced, it
depends only on those three fields (any record agreeing on them gets the
same verdict), and it is the risk verdict iff some collected status
contains "Diabetes" or "Hypertension Stage", the caution verdict iff none
does but some status contains "Prediabetes" or "Elevated/Prehypertension",
and Normal iff no status matches either set of substrings. -/
theorem c1_overall_verdict (d d' : DiagnosisRecord)
    (hg : d.glucose = d'.glucose) (hh : d.hba1c = d'.hba1c)
    (hbp : d.hypertension = d'.hypertension)
    (hpres : d.glucose.isSome = true ∨ d.hba1c.isSome = true ∨
      d.hypertension.isSome = true) :
    overallVerdict d = some (overallOf (collectStatuses d)) ∧
    overallVerdict d' = overallVerdict d ∧
    (overallOf (collectStatuses d) = ("Diabetes or Hypertension Indicated", "red") ↔
      ∃ s ∈ collectStatuses d, isRiskStatus s = true) ∧
    (overallOf (collectStatuses d) =
        ("Prediabetes or Prehypertension Indicated", "orange") ↔
      (∀ s ∈ collectStatuses d, isRiskStatus s = false) ∧
        ∃ s ∈ collectStatuses d, isCautionStatus s = true) ∧
    (overallOf (collectStatuses d) = ("Normal", "green") ↔
      ∀ s ∈ collectStatuses d, isRiskStatus s = false ∧ isCautionStatus s = false) := by
  have hne : recordNonempty d = true := by
    rcases hpres with h | h | h <;> simp [recordNonempty, h]
  have hne' : recordNonempty d' = true := by
    rcases hpres with h | h | h <;>
      [rw [hg] at h; rw [hh] at h; rw [hbp] at h] <;> simp [recordNonempty, h]
  have hcs : collectStatuses d' = collectStatuses d := by
    unfold collectStatuses; rw [hg, hh, hbp]
  have k1 : (("Diabetes or Hypertension Indicated", "red") : String × String) ≠
      ("Prediabetes or Prehypertension Indicated", "orange") := by decide
  have k2 : (("Diabetes or Hypertension Indicated", "red") : String × String) ≠
      ("Normal", "green") := by decide
  have k3 : (("Prediabetes or Prehypertension Indicated", "orange") : String × String) ≠
      ("Normal", "green") := by decide
  refine ⟨by simp [overallVerdict, hne], ?_, ?_⟩
  · simp [overallVerdict, hne, hne', hcs]
  · unfold overallOf
    split_ifs with h1 h2 <;>
      refine ⟨⟨?_, ?_⟩, ⟨?_, ?_⟩, ⟨?_, ?_⟩⟩ <;>
      simp_all [List.any_eq_true]
    obtain ⟨s, hs, hr⟩ := h1
    exact ⟨s, hs, fun hfalse => by simp [hr] at hfalse⟩

/-- Claim C1 witness: the spec's scenario 5 record (glucose Diabetes, hba1c
Normal, hypertension Normal) yields the risk verdict. -/
theorem c1_overall_verdict_witness :
    overallVerdict
      ⟨none, none, none, some "Yes", some "never", some ("Normal", "green"),
        some ("Diabetes", "red"), some ("Normal", "green")⟩ =
      some ("Diabetes or Hypertension Indicated", "red") := by
  have h := c1_overall_verdict
    ⟨none, none, none, some "Yes", some "never", some ("Normal", "green"),
      some ("Diabetes", "red"), some ("Normal", "green")⟩
    ⟨none, none, none, some "Yes", some "never", some ("Normal", "green"),
      some ("Diabetes", "red"), some ("Normal", "green")⟩
    rfl rfl rfl (Or.inl rfl)
  rw [h.1]
  decide

/-- Claim C2: the blood-pressure classifier realizes exactly the ordered
band semantics: Normal iff both components are below 120/80; else
Elevated/Prehypertension iff systolic lies in 120-139 or diastolic in
80-89; else Stage 1 iff systolic lies in 140-159 or diastolic in 90-99;
else Stage 2 — first matching band wins. -/
theorem c2_bp_bands (s d : ℕ) :
    ((classifyBP s d).1 = "Normal" ↔ s < 120 ∧ d < 80) ∧
    ((classifyBP s d).1 = "Elevated/Prehypertension" ↔
      ¬(s < 120 ∧ d < 80) ∧ ((120 ≤ s ∧ s ≤ 139) ∨ (80 ≤ d ∧ d ≤ 89))) ∧
    ((classifyBP s d).1 = "Hypertension Stage 1" ↔
      ¬(s < 120 ∧ d < 80) ∧ ¬((120 ≤ s ∧ s ≤ 139) ∨ (80 ≤ d ∧ d ≤ 89)) ∧
        ((140 ≤ s ∧ s ≤ 159) ∨ (90 ≤ d ∧ d ≤ 99))) ∧
    ((classifyBP s d).1 = "Hypertension Stage 2" ↔
      ¬(s < 120 ∧ d < 80) ∧ ¬((120 ≤ s ∧ s ≤ 139) ∨ (80 ≤ d ∧ d ≤ 89)) ∧
        ¬((140 ≤ s ∧ s ≤ 159) ∨ (90 ≤ d ∧ d ≤ 99))) := by
  obtain ⟨n1, n2, n3, n4, n5, n6⟩ := statusStrings
  unfold classifyBP
  split_ifs with h1 h2 h3 <;>
    exact ⟨by simp_all, by simp_all, by simp_all, by simp_all⟩

/-- Claim C3: for every located glucose value, a unit token that
(case-insensitively) contains "mg/dl" yields value_mmol = v / 18 and
value_mg = v, and an absent unit or one lowering to "mmol/l" yields
value_mmol = v and value_mg = v * 18 — in both the substring-test variant
(integrate.py / app.py) and the equality-test variant
(PDF_Extraction.py / unnamed), whose captured unit tokens all lower to
"mg/dl" or "mmol/l". -/
theorem c3_glucose_units (v : ℚ) (u : Option String)
    (hdom : ∀ s, u = some s → pyLower s = "mg/dl" ∨ pyLower s = "mmol/l") :
    ((∃ s, u = some s ∧ strContains (pyLower s) "mg/dl" = true) →
      glucoseNormalize v u = (v / 18, v) ∧ glucoseNormalizePdf v u = (v / 18, v)) ∧
    ((u = none ∨ ∃ s, u = some s ∧ strContains (pyLower s) "mg/dl" = false) →
      glucoseNormalize v u = (v, v * 18) ∧ glucoseNormalizePdf v u = (v, v * 18)) := by
  have t1 : strContains "mg/dl" "mg/dl" = true := by decide
  have t2 : strContains "mmol/l" "mg/dl" = false := by decide
  have m1 : ("mg/dl" : String) ∈ ["mg/dl", "mg/dl"] := by decide
  have m2 : ("mmol/l" : String) ∉ ["mg/dl", "mg/dl"] := by decide
  constructor
  · rintro ⟨s, rfl, hc⟩
    rcases hdom s rfl with h | h
    · constructor
      · simp only [glucoseNormalize, h, t1, if_true]
      · simp only [glucoseNormalizePdf, h, if_pos m1]
    · rw [h] at hc; rw [t2] at hc; exact absurd hc (by decide)
  · rintro (rfl | ⟨s, rfl, hc⟩)
    · constructor
      · simp only [glucoseNormalize, t2, Bool.false_eq_true, if_false]
      · simp only [glucoseNormalizePdf, if_neg m2]
    · rcases hdom s rfl with h | h
      · rw [h] at hc; rw [t1] at hc; exact absurd hc (by decide)
      · constructor
        · simp only [glucoseNormalize, h, t2, Bool.false_eq_true, if_false]
        · simp only [glucoseNormalizePdf, h, if_neg m2]

/-- Claim C3 witness: "126 mg/dL" converts to 7 mmol/L in both variants,
and a unitless 5 defaults to mmol/L (5 mmol/L, 90 mg/dL). -/
theorem c3_glucose_units_witness :
    glucoseNormalize 126 (some "mg/dL") = (7, 126) ∧
    glucoseNormalizePdf 126 (some "mg/dL") = (7, 126) ∧
    glucoseNormalize 5 none = (5, 90) := by
  have hdom : ∀ s, (some "mg/dL" : Option String) = some s →
      pyLower s = "mg/dl" ∨ pyLower s = "mmol/l" := by
    rintro s h
    cases h
    exact Or.inl (by decide)
  have hdom2 : ∀ s, (none : Option String) = some s →
      pyLower s = "mg/dl" ∨ pyLower s = "mmol/l" := by rintro s h; cases h
  have h1 := (c3_glucose_units 126 (some "mg/dL") hdom).1
    ⟨"mg/dL", rfl, by decide⟩
  have h2 := (c3_glucose_units 5 none hdom2).2 (Or.inl rfl)
  refine ⟨?_, ?_, ?_⟩
  · rw [h1.1]; norm_num
  · rw [h1.2]; norm_num
  · rw [h2.1]; norm_num

/-- Claim C4: the Unknown-category glucose classifier evaluates the fasting
bands, emits "Unknown Category - Assuming Fasting (<band-name>)" with
caution (orange) severity except risk (red) for the Hypoglycemia and
Diabetes bands; in particular "Glucose: 126 mg/dL" with no specimen type
and no inline qualifier gives value_mmol = 7, category "Unknown" and
status "Unknown Category - Assuming Fasting (Diabetes)" at risk (red)
severity. -/
theorem c4_unknown_assumes_fasting :
    (∀ v : ℚ, classifyGlucoseUnknown v =
      ("Unknown Category - Assuming Fasting (" ++ (classifyGlucoseFasting v).1 ++ ")",
        if (classifyGlucoseFasting v).1 = "Hypoglycemia" ∨
            (classifyGlucoseFasting v).1 = "Diabetes" then "red" else "orange")) ∧
    glucoseNormalize 126 (some "mg/dL") = (7, 126) ∧
    glucoseCategory none none = "Unknown" ∧
    classifyGlucose (glucoseCategory none none) 7 =
      ("Unknown Category - Assuming Fasting (Diabetes)", "red") := by
  refine ⟨?_, ?_, rfl, ?_⟩
  · intro v
    unfold classifyGlucoseUnknown classifyGlucoseFasting
    split_ifs <;> simp_all
  · have h : pyLower "mg/dL" = "mg/dl" := by decide
    simp only [glucoseNormalize, h, show strContains "mg/dl" "mg/dl" = true from by decide,
      if_true]
    norm_num
  · have h1 : glucoseCategory none none = "Unknown" := rfl
    rw [h1]
    have h2 : ("Unknown" : String) ≠ "Fasting" := by decide
    have h3 : ("Unknown" : String) ≠ "Random" := by decide
    simp only [classifyGlucose, h2, h3, if_false]
    have c1 : ¬((7 : ℚ) < 3.9) := by norm_num
    have c2 : ¬((3.9 : ℚ) ≤ 7 ∧ (7 : ℚ) ≤ 6.0) := by norm_num
    have c3 : ¬((6.1 : ℚ) ≤ 7 ∧ (7 : ℚ) ≤ 6.9) := by norm_num
    simp only [classifyGlucoseUnknown, c1, c2, c3, if_false]
    decide

/-- Claim C5 (code bug evaluation): in the hypertension-aware route (the
unnamed variant), heart_diseases and smoking_history are always inserted
into the diagnosis dict before any parsing, so even when none of glucose,
hba1c and hypertension was located the `if diagnosis:` guard passes, the
status list is empty, and the overall verdict defaults to Normal — the
"insufficient data" branch is unreachable.  By contrast the two-field
PDF_Extraction.py variant does report the distinct insufficient-data
condition (no verdict) when its dict is empty. -/
theorem c5_defaults_to_normal (heart smoking : String) (age : Option ℚ)
    (sex : Option String) (bmi : Option (String × String)) :
    collectStatuses (buildDiagnosis heart smoking age sex bmi none none none) = [] ∧
    overallVerdict (buildDiagnosis heart smoking age sex bmi none none none) =
      some ("Normal", "green") ∧
    overallVerdictPdf none none = none := by
  refine ⟨rfl, ?_, rfl⟩
  simp [overallVerdict, recordNonempty, buildDiagnosis, collectStatuses, overallOf]

/-- Claim C6 counterexample: in the Random-default variant
(integrate.py / app.py), with no specimen-type match and the inline
qualifier "fasting" present, the category is "Random", not the
qualifier-determined "Fasting" — the claimed fallback to the inline
qualifier does not happen there. -/
theorem c6_counterexample :
    glucoseCategoryR none (some "fasting") = "Random" ∧
    ("Random" : String) ≠ "Fasting" ∧ pyCapitalize "fasting" = "Fasting" := by decide

/-- Claim C6 amended: when the specimen locator finds no match, the
Unknown-default variant (PDF_Extraction.py / unnamed) falls back to the
inline qualifier and only defaults to "Unknown" when that is also absent;
the Random-default variant (integrate.py / app.py) applies its "Random"
default to the specimen category itself, which preempts the fallback, so
its category is "Random" regardless of the inline qualifier. -/
theorem c6_amended (q : Option String) :
    glucoseCategory none q =
      (match q with
       | none => "Unknown"
       | some s => if s = "" then "Unknown" else pyCapitalize s) ∧
    glucoseCategoryR none q = "Random" := by
  constructor
  · cases q with
    | none => rfl
    | some s =>
      by_cases hs : s = ""
      · simp [glucoseCategory, pyOr, hs]
      · simp only [glucoseCategory, pyOr, hs, if_neg, if_false, Option.getD_some]
        by_cases hu : s = "Unknown"
        · subst hu; simpa using (by decide : ("Unknown" : String) = pyCapitalize "Unknown")
        · simp [hu]
  · cases q with
    | none => rfl
    | some s =>
      by_cases hs : s = "" <;> simp [glucoseCategoryR, specimenCategoryR, hs]

/-- Claim C7 counterexample: on systolic 115 / diastolic 95 the classifier
returns "Hypertension Stage 1", not the claimed
"Elevated/Prehypertension": 115 is below the Elevated systolic band and
95 is above its diastolic band, so the chain falls through to Stage 1. -/
theorem c7_counterexample :
    classifyBP 115 95 = ("Hypertension Stage 1", "red") ∧
    ("Hypertension Stage 1" : String) ≠ "Elevated/Prehypertension" := by decide

/-- Claim C7 amended: the elif short-circuit phenomenon does exist, at
systolic 125 / diastolic 95: the pair is classified
"Elevated/Prehypertension" although the diastolic component alone lies in
the Stage-1 band 90-99 (on 100/95, where no earlier band captures it, the
same diastolic yields Stage 1). -/
theorem c7_amended :
    classifyBP 125 95 = ("Elevated/Prehypertension", "orange") ∧
    (90 ≤ 95 ∧ 95 ≤ 99) ∧
    (classifyBP 100 95).1 = "Hypertension Stage 1" := by decide

/-- Claim C8 counterexample: the HbA1c value 6.25 (producible by the
locator, e.g. from "HbA1c: 6.25") lies in none of the spec's three bands
(<5.7, 5.7-6.2, >=6.3) — the stated bands do not cover the input domain —
while the classifier's else branch assigns it "Diabetes". -/
theorem c8_counterexample :
    ¬((6.25 : ℚ) < 5.7) ∧ ¬((5.7 : ℚ) ≤ 6.25 ∧ (6.25 : ℚ) ≤ 6.2) ∧
    ¬((6.3 : ℚ) ≤ 6.25) ∧ (classifyHbA1c 6.25).1 = "Diabetes" := by
  refine ⟨by norm_num, by norm_num, by norm_num, ?_⟩
  norm_num [classifyHbA1c]

/-- Helper: comparison with a one-decimal threshold on the tenth grid. -/
theorem gridLt (p : ℚ) (k a : ℤ) (hk : (k : ℚ) = 10 * p) :
    p < (a : ℚ) / 10 ↔ k < a := by
  rw [lt_div_iff₀ (by norm_num : (0 : ℚ) < 10), mul_comm, ← hk]
  exact Int.cast_lt

/-- Helper: threshold-below-value comparison on the tenth grid. -/
theorem gridLe (p : ℚ) (k a : ℤ) (hk : (k : ℚ) = 10 * p) :
    (a : ℚ) / 10 ≤ p ↔ a ≤ k := by
  rw [div_le_iff₀ (by norm_num : (0 : ℚ) < 10), mul_comm, ← hk]
  exact Int.cast_le

/-- Helper: value-below-threshold comparison on the tenth grid. -/
theorem gridLe' (p : ℚ) (k a : ℤ) (hk : (k : ℚ) = 10 * p) :
    p ≤ (a : ℚ) / 10 ↔ k ≤ a := by
  rw [le_div_iff₀ (by norm_num : (0 : ℚ) < 10), mul_comm, ← hk]
  exact Int.cast_le

/-- Claim C8 amended: over all rational inputs the stated bands are
pairwise disjoint and each band maps to exactly its stated status
(unconditionally); every value strictly inside a gap — HbA1c (6.2,6.3),
fasting glucose (6.0,6.1) and (6.9,7.0) — belongs to no stated band and
is classified "Diabetes" by the else branch (proved universally over each
gap); band coverage holds for every value on the one-decimal grid
(value = k/10): every such HbA1c percent value falls in one of <5.7,
5.7-6.2, >=6.3, and every such fasting-glucose mmol/L value in one of
<3.9, 3.9-6.0, 6.1-6.9, >=7.0. -/
theorem c8_amended (p v : ℚ) :
    (¬(p < 5.7 ∧ (5.7 ≤ p ∧ p ≤ 6.2)) ∧ ¬(p < 5.7 ∧ 6.3 ≤ p) ∧
      ¬((5.7 ≤ p ∧ p ≤ 6.2) ∧ 6.3 ≤ p) ∧
      (p < 5.7 → (classifyHbA1c p).1 = "Normal") ∧
      ((5.7 ≤ p ∧ p ≤ 6.2) → (classifyHbA1c p).1 = "Prediabetes") ∧
      (6.3 ≤ p → (classifyHbA1c p).1 = "Diabetes") ∧
      (6.2 < p ∧ p < 6.3 →
        ¬(p < 5.7 ∨ (5.7 ≤ p ∧ p ≤ 6.2) ∨ 6.3 ≤ p) ∧
          (classifyHbA1c p).1 = "Diabetes")) ∧
    (¬(v < 3.9 ∧ (3.9 ≤ v ∧ v ≤ 6.0)) ∧ ¬(v < 3.9 ∧ (6.1 ≤ v ∧ v ≤ 6.9)) ∧
      ¬(v < 3.9 ∧ 7.0 ≤ v) ∧ ¬((3.9 ≤ v ∧ v ≤ 6.0) ∧ (6.1 ≤ v ∧ v ≤ 6.9)) ∧
      ¬((3.9 ≤ v ∧ v ≤ 6.0) ∧ 7.0 ≤ v) ∧ ¬((6.1 ≤ v ∧ v ≤ 6.9) ∧ 7.0 ≤ v) ∧
      (v < 3.9 → (classifyGlucoseFasting v).1 = "Hypoglycemia") ∧
      ((3.9 ≤ v ∧ v ≤ 6.0) → (classifyGlucoseFasting v).1 = "Normal") ∧
      ((6.1 ≤ v ∧ v ≤ 6.9) → (classifyGlucoseFasting v).1 = "Prediabetes") ∧
      (7.0 ≤ v → (classifyGlucoseFasting v).1 = "Diabetes") ∧
      (6.0 < v ∧ v < 6.1 →
        ¬(v < 3.9 ∨ (3.9 ≤ v ∧ v ≤ 6.0) ∨ (6.1 ≤ v ∧ v ≤ 6.9) ∨ 7.0 ≤ v) ∧
          (classifyGlucoseFasting v).1 = "Diabetes") ∧
      (6.9 < v ∧ v < 7.0 →
        ¬(v < 3.9 ∨ (3.9 ≤ v ∧ v ≤ 6.0) ∨ (6.1 ≤ v ∧ v ≤ 6.9) ∨ 7.0 ≤ v) ∧
          (classifyGlucoseFasting v).1 = "Diabetes")) ∧
    ((∃ k : ℤ, (k : ℚ) = 10 * p) → p < 5.7 ∨ (5.7 ≤ p ∧ p ≤ 6.2) ∨ 6.3 ≤ p) ∧
    ((∃ j : ℤ, (j : ℚ) = 10 * v) →
      v < 3.9 ∨ (3.9 ≤ v ∧ v ≤ 6.0) ∨ (6.1 ≤ v ∧ v ≤ 6.9) ∨ 7.0 ≤ v) := by
  refine ⟨⟨?_, ?_, ?_, ?_, ?_, ?_, ?_⟩,
    ⟨?_, ?_, ?_, ?_, ?_, ?_, ?_, ?_, ?_, ?_, ?_, ?_⟩, ?_, ?_⟩
  · rintro ⟨h1, h2, _⟩; linarith
  · rintro ⟨h1, h2⟩; linarith
  · rintro ⟨⟨_, h1⟩, h2⟩; linarith
  · intro h; simp [classifyHbA1c, h]
  · rintro ⟨h1, h2⟩
    have n1 : ¬(p < 5.7) := by linarith
    simp [classifyHbA1c, n1, h1, h2]
  · intro h
    have n1 : ¬(p < 5.7) := by linarith
    have n2 : ¬(5.7 ≤ p ∧ p ≤ 6.2) := by rintro ⟨_, hb⟩; linarith
    simp [classifyHbA1c, n1, n2]
  · rintro ⟨hg1, hg2⟩
    have n1 : ¬(p < 5.7) := by linarith
    have n2 : ¬(5.7 ≤ p ∧ p ≤ 6.2) := by rintro ⟨_, hb⟩; linarith
    refine ⟨?_, by simp [classifyHbA1c, n1, n2]⟩
    rintro (h | ⟨_, hb⟩ | h) <;> linarith
  · rintro ⟨h1, h2, _⟩; linarith
  · rintro ⟨h1, h2, _⟩; linarith
  · rintro ⟨h1, h2⟩; linarith
  · rintro ⟨⟨_, h1⟩, h2, _⟩; linarith
  · rintro ⟨⟨_, h1⟩, h2⟩; linarith
  · rintro ⟨⟨_, h1⟩, h2⟩; linarith
  · intro h; simp [classifyGlucoseFasting, h]
  · rintro ⟨h1, h2⟩
    have n1 : ¬(v < 3.9) := by linarith
    simp [classifyGlucoseFasting, n1, h1, h2]
  · rintro ⟨h1, h2⟩
    have n1 : ¬(v < 3.9) := by linarith
    have n2 : ¬(3.9 ≤ v ∧ v ≤ 6.0) := by rintro ⟨_, hb⟩; linarith
    simp [classifyGlucoseFasting, n1, n2, h1, h2]
  · intro h
    have n1 : ¬(v < 3.9) := by linarith
    have n2 : ¬(3.9 ≤ v ∧ v ≤ 6.0) := by rintro ⟨_, hb⟩; linarith
    have n3 : ¬(6.1 ≤ v ∧ v ≤ 6.9) := by rintro ⟨_, hb⟩; linarith
    simp [classifyGlucoseFasting, n1, n2, n3]
  · rintro ⟨hg1, hg2⟩
    have n1 : ¬(v < 3.9) := by linarith
    have n2 : ¬(3.9 ≤ v ∧ v ≤ 6.0) := by rintro ⟨_, hb⟩; linarith
    have n3 : ¬(6.1 ≤ v ∧ v ≤ 6.9) := by rintro ⟨ha, _⟩; linarith
    refine ⟨?_, by simp [classifyGlucoseFasting, n1, n2, n3]⟩
    rintro (h | ⟨_, hb⟩ | ⟨ha, _⟩ | h) <;> linarith
  · rintro ⟨hg1, hg2⟩
    have n1 : ¬(v < 3.9) := by linarith
    have n2 : ¬(3.9 ≤ v ∧ v ≤ 6.0) := by rintro ⟨_, hb⟩; linarith
    have n3 : ¬(6.1 ≤ v ∧ v ≤ 6.9) := by rintro ⟨_, hb⟩; linarith
    refine ⟨?_, by simp [classifyGlucoseFasting, n1, n2, n3]⟩
    rintro (h | ⟨_, hb⟩ | ⟨_, hb⟩ | h) <;> linarith
  · rintro ⟨k, hk⟩
    have e57 : p < 5.7 ↔ k < 57 := by
      rw [show (5.7 : ℚ) = ((57 : ℤ) : ℚ) / 10 by norm_num]; exact gridLt p k 57 hk
    have e57b : 5.7 ≤ p ↔ 57 ≤ k := by
      rw [show (5.7 : ℚ) = ((57 : ℤ) : ℚ) / 10 by norm_num]; exact gridLe p k 57 hk
    have e62 : p ≤ 6.2 ↔ k ≤ 62 := by
      rw [show (6.2 : ℚ) = ((62 : ℤ) : ℚ) / 10 by norm_num]; exact gridLe' p k 62 hk
    have e63 : 6.3 ≤ p ↔ 63 ≤ k := by
      rw [show (6.3 : ℚ) = ((63 : ℤ) : ℚ) / 10 by norm_num]; exact gridLe p k 63 hk
    rcases (by omega : k < 57 ∨ (57 ≤ k ∧ k ≤ 62) ∨ 63 ≤ k) with h | ⟨h1, h2⟩ | h
    · exact Or.inl (e57.mpr h)
    · exact Or.inr (Or.inl ⟨e57b.mpr h1, e62.mpr h2⟩)
    · exact Or.inr (Or.inr (e63.mpr h))
  · rintro ⟨j, hj⟩
    have f39 : v < 3.9 ↔ j < 39 := by
      rw [show (3.9 : ℚ) = ((39 : ℤ) : ℚ) / 10 by norm_num]; exact gridLt v j 39 hj
    have f39b : 3.9 ≤ v ↔ 39 ≤ j := by
      rw [show (3.9 : ℚ) = ((39 : ℤ) : ℚ) / 10 by norm_num]; exact gridLe v j 39 hj
    have f60 : v ≤ 6.0 ↔ j ≤ 60 := by
      rw [show (6.0 : ℚ) = ((60 : ℤ) : ℚ) / 10 by norm_num]; exact gridLe' v j 60 hj
    have f61 : 6.1 ≤ v ↔ 61 ≤ j := by
      rw [show (6.1 : ℚ) = ((61 : ℤ) : ℚ) / 10 by norm_num]; exact gridLe v j 61 hj
    have f69 : v ≤ 6.9 ↔ j ≤ 69 := by
      rw [show (6.9 : ℚ) = ((69 : ℤ) : ℚ) / 10 by norm_num]; exact gridLe' v j 69 hj
    have f70 : 7.0 ≤ v ↔ 70 ≤ j := by
      rw [show (7.0 : ℚ) = ((70 : ℤ) : ℚ) / 10 by norm_num]; exact gridLe v j 70 hj
    rcases (by omega : j < 39 ∨ (39 ≤ j ∧ j ≤ 60) ∨ (61 ≤ j ∧ j ≤ 69) ∨ 70 ≤ j)
      with h | ⟨h1, h2⟩ | ⟨h1, h2⟩ | h
    · exact Or.inl (f39.mpr h)
    · exact Or.inr (Or.inl ⟨f39b.mpr h1, f60.mpr h2⟩)
    · exact Or.inr (Or.inr (Or.inl ⟨f61.mpr h1, f69.mpr h2⟩))
    · exact Or.inr (Or.inr (Or.inr (f70.mpr h)))

/-- Claim C8 amended witness: 5.8 percent is classified Prediabetes and is
covered by the grid coverage clause; 7.0 mmol/L fasting is classified
Diabetes; the gap values 6.25 (HbA1c), 6.05 and 6.95 (fasting glucose)
are all classified Diabetes by the gap clauses. -/
theorem c8_amended_witness :
    (classifyHbA1c 5.8).1 = "Prediabetes" ∧
    (classifyGlucoseFasting 7).1 = "Diabetes" ∧
    (classifyHbA1c 6.25).1 = "Diabetes" ∧
    (classifyGlucoseFasting 6.05).1 = "Diabetes" ∧
    (classifyGlucoseFasting 6.95).1 = "Diabetes" ∧
    ((5.8 : ℚ) < 5.7 ∨ ((5.7 : ℚ) ≤ 5.8 ∧ (5.8 : ℚ) ≤ 6.2) ∨ (6.3 : ℚ) ≤ 5.8) := by
  obtain ⟨⟨_, _, _, _, hp5, _, _⟩, ⟨_, _, _, _, _, _, _, _, _, hd, _, _⟩, hcov, _⟩ :=
    c8_amended 5.8 7
  obtain ⟨⟨_, _, _, _, _, _, hgapH⟩, ⟨_, _, _, _, _, _, _, _, _, _, hgap1, _⟩, _, _⟩ :=
    c8_amended 6.25 6.05
  obtain ⟨_, ⟨_, _, _, _, _, _, _, _, _, _, _, hgap2⟩, _, _⟩ :=
    c8_amended 5.8 6.95
  exact ⟨hp5 ⟨by norm_num, by norm_num⟩, hd (by norm_num),
    (hgapH ⟨by norm_num, by norm_num⟩).2, (hgap1 ⟨by norm_num, by norm_num⟩).2,
    (hgap2 ⟨by norm_num, by norm_num⟩).2, hcov ⟨58, by norm_num⟩⟩

/-- Helper for Claim C9: the concrete mmol/mol-to-percent conversion of the
"HbA1c: 45 mmol/mol" scenario. -/
theorem hba1c45 : hba1cNormalize 45 (some "mmol/mol") = (6.3, 45) := by
  have h1 : pyLower "mmol/mol" ≠ "%" := by decide
  have hfl : (⌊((45 : ℚ) + 23.5) / 10.93 * 10⌋ : ℤ) = 62 := by
    norm_num
  unfold hba1cNormalize pyRound1 pyRoundHalfEven
  simp only [h1, if_false, hfl]
  norm_num

/-- Claim C9 counterexample: for "HbA1c: 45 mmol/mol" the code computes
value_percent = round((45 + 23.5) / 10.93, 1) = 6.3 (since
68.5 / 10.93 = 6.267...), not 6.2, and classifies 6.3 as "Diabetes",
not "Prediabetes". -/
theorem c9_counterexample :
    (hba1cNormalize 45 (some "mmol/mol")).1 = 6.3 ∧ (6.3 : ℚ) ≠ 6.2 ∧
    (classifyHbA1c (hba1cNormalize 45 (some "mmol/mol")).1).1 = "Diabetes" ∧
    ("Diabetes" : String) ≠ "Prediabetes" := by
  have h := hba1c45
  refine ⟨by rw [h], by norm_num, ?_, by decide⟩
  rw [h]
  norm_num [classifyHbA1c]

/-- Claim C9 amended: for "HbA1c: 45 mmol/mol" the analyzer stores
value_mmol = 45 and value_percent = round((45 + 23.5) / 10.93, 1), which
evaluates to 6.3, and classifies the status from the percent value as
"Diabetes". -/
theorem c9_amended :
    hba1cNormalize 45 (some "mmol/mol") = (pyRound1 ((45 + 23.5) / 10.93), 45) ∧
    pyRound1 ((45 + 23.5) / 10.93) = 6.3 ∧
    classifyHbA1c 6.3 = ("Diabetes", "red") := by
  have h1 : pyLower "mmol/mol" ≠ "%" := by decide
  have hfl : (⌊((45 : ℚ) + 23.5) / 10.93 * 10⌋ : ℤ) = 62 := by norm_num
  refine ⟨?_, ?_, ?_⟩
  · unfold hba1cNormalize
    simp only [h1, if_false]
  · unfold pyRound1 pyRoundHalfEven
    simp only [hfl]
    norm_num
  · norm_num [classifyHbA1c]

/-- Helper: the leftmost-search recursion returns the match at the first
position where the age pattern fires, for any split of the text into a
match-free run and a matching tail. -/
theorem ageSearchL_append (pre suf : List Char) (v : ℚ)
    (hearlier : ∀ i, i < pre.length → ageMatchAt ((pre ++ suf).drop i) = none)
    (hmatch : ageMatchAt suf = some v) :
    ageSearchL (pre ++ suf) = some v := by
  induction pre with
  | nil =>
    cases suf with
    | nil => simp [ageMatchAt] at hmatch
    | cons c t => simp only [List.nil_append, ageSearchL, hmatch]
  | cons c cs ih =>
    have h0 : ageMatchAt (c :: (cs ++ suf)) = none := by
      have := hearlier 0 (by simp)
      simpa using this
    show ageSearchL (c :: (cs ++ suf)) = some v
    rw [ageSearchL, h0]
    exact ih fun i hi => by
      have := hearlier (i + 1) (by simpa using Nat.succ_lt_succ hi)
      simpa [List.drop_succ_cons] using this

/-- Claim C10: the age locator has no word-boundary requirement.  For any
text splitting as pre ++ suf where pre ends in a letter (so the "age" that
starts suf is embedded inside another word), no earlier position matches,
and the age pattern matches at the start of suf with numeric value v, the
age field is populated with v rather than absent.  In particular
"Page 2" yields age 2 via the "age 2" suffix of "Page". -/
theorem c10_age_no_word_boundary (t : String) (pre suf : List Char) (v : ℚ)
    (hsplit : t.data = pre ++ suf)
    (hword : ∃ c, pre.getLast? = some c ∧ c.isAlpha = true)
    (hearlier : ∀ i, i < pre.length → ageMatchAt ((pre ++ suf).drop i) = none)
    (hmatch : ageMatchAt suf = some v) :
    ageSearch t = some v := by
  clear hword
  unfold ageSearch
  rw [hsplit]
  exact ageSearchL_append pre suf v hearlier hmatch

/-- Claim C10 witness: the document "Page 2" (with no other age-pattern
occurrence) populates the age field with 2, matched inside "Page". -/
theorem c10_age_witness : ageSearch "Page 2" = some 2 := by
  apply c10_age_no_word_boundary "Page 2" ['P'] "age 2".data 2
  · decide
  · exact ⟨'P', by decide, by decide⟩
  · decide
  · decide
